import Mathlib

/-!
Shallow embedding of codeintel-api-schema-validator (src/main.py).

The program is a one-shot CLI pipeline: parse arguments, load a data file and a
schema file (JSON or YAML, type explicit or inferred from the extension), run a
JSON Schema validation engine, and map the outcome to stdout messages, log lines
and a process exit code.  The external collaborators (json.load, yaml.safe_load,
jsonschema.validate) are modelled as opaque oracles; everything in src/main.py
itself - type resolution, the try/except structure, the message formatting and
exit-code mapping - is embedded directly below.
-/

/-- Log levels used by the logging calls in main.py. -/
inductive LogLevel
  | info
  | error
deriving DecidableEq, Repr

/-- One log record: the level and the formatted message of a single logging call. -/
abbrev LogEntry := LogLevel × String

/-- Generic document tree (spec section 3): the parsed form of a JSON or YAML file. -/
inductive Doc
  | obj (fields : List (String × Doc))
  | arr (items : List Doc)
  | str (s : String)
  | num (n : Int)
  | boolVal (b : Bool)
  | null

/-- Python exception values that can flow through main.py, each carrying the
string str(e) that Python would render for it. -/
inductive PyErr
  | fileNotFoundError (msg : String)
  | jsonDecodeError (msg : String)
  | valueError (msg : String)
  | yamlError (msg : String)
  | validationError (msg : String)
  | schemaError (msg : String)
  | osError (msg : String)
  | otherExc (msg : String)
deriving DecidableEq, Repr

/-- str(e): the message carried by the exception. -/
def PyErr.toMsg : PyErr → String
  | .fileNotFoundError m => m
  | .jsonDecodeError m => m
  | .valueError m => m
  | .yamlError m => m
  | .validationError m => m
  | .schemaError m => m
  | .osError m => m
  | .otherExc m => m

/-- isinstance(e, FileNotFoundError). -/
def PyErr.isFileNotFound : PyErr → Bool
  | .fileNotFoundError _ => true
  | _ => false

/-- isinstance(e, ValueError).  json.JSONDecodeError subclasses ValueError, so it
is caught by an except ValueError clause. -/
def PyErr.isValueErrorClass : PyErr → Bool
  | .valueError _ => true
  | .jsonDecodeError _ => true
  | _ => false

/-- isinstance(e, jsonschema.ValidationError). -/
def PyErr.isValidationErrorClass : PyErr → Bool
  | .validationError _ => true
  | _ => false

/-- isinstance(e, jsonschema.SchemaError). -/
def PyErr.isSchemaErrorClass : PyErr → Bool
  | .schemaError _ => true
  | _ => false

/-- Outcome of opening and reading a file that exists on disk: either its full
text content, or the message of the OS error (permissions, etc.) the read raised. -/
inductive ReadResult
  | content (s : String)
  | ioFail (msg : String)
deriving DecidableEq, Repr

/-- The filesystem visible to one run: an association of paths to read outcomes.
A path absent from the list does not exist, so os.path.exists is false on it. -/
abbrev FS := List (String × ReadResult)

/-- Path lookup in the filesystem model. -/
def lookupFS (fs : FS) (p : String) : Option ReadResult :=
  match fs with
  | [] => none
  | (q, r) :: rest => if q == p then some r else lookupFS rest p

/-- External parser oracle (json.load or yaml.safe_load): returns a document or
the message of the parse exception it raised. -/
abbrev Parser := String → Except String Doc

/-- External jsonschema.validate engine oracle: returns normally, or raises the
given Python exception. -/
abbrev Validator := Doc → Doc → Except PyErr Unit

/-- Python str.split on the dot character: splits at every dot, keeping empty
pieces, and always returns a non-empty list. -/
def splitOnDot : List Char → List (List Char)
  | [] => [[]]
  | c :: rest =>
    if c == '.' then [] :: splitOnDot rest
    else
      match splitOnDot rest with
      | [] => [[c]]
      | piece :: more => (c :: piece) :: more

/-- Python str.lower on a character list (ASCII lowering). -/
def lowerL (l : List Char) : List Char := l.map Char.toLower

/-- Extension inference of main.py line 44: take the last piece of the path split
on dots and lower it. -/
def inferType (path : String) : String :=
  String.mk (lowerL ((splitOnDot path.data).getLastD []))

/-- Type resolution of load_data (main.py lines 43-44): an explicit type is used
as given; otherwise the type is inferred from the path. -/
def resolveType (path : String) : Option String → String
  | some t => t
  | none => inferType path

/-- The ValueError message of main.py line 53 (note the double space of the source). -/
def unsupportedMsg (t : String) : String :=
  "Unsupported file type: " ++ t ++ ".  Must be json or yaml/yml."

/-- The json branch of the loader body (main.py lines 48-49). -/
def jsonParseResult (jp : Parser) (s : String) : Except PyErr Doc :=
  match jp s with
  | .ok d => .ok d
  | .error m => .error (.jsonDecodeError m)

/-- The yaml branch of the loader body (main.py lines 50-51). -/
def yamlParseResult (yp : Parser) (s : String) : Except PyErr Doc :=
  match yp s with
  | .ok d => .ok d
  | .error m => .error (.yamlError m)

/-- Main.py lines 48-53: dispatch on the resolved file type, raising ValueError
on anything other than json, yaml or yml. -/
def parse_as (jp yp : Parser) (file_type s : String) : Except PyErr Doc :=
  if file_type == "json" then jsonParseResult jp s
  else if file_type == "yaml" || file_type == "yml" then yamlParseResult yp s
  else .error (.valueError (unsupportedMsg file_type))

/-- The try block of load_data (main.py lines 46-53): open the file, then parse
by resolved type.  Opening can only fail here with an OS error, because the
existence check already ran before the try block. -/
def load_body (fs : FS) (jp yp : Parser) (file_path file_type : String) :
    Except PyErr Doc :=
  match lookupFS fs file_path with
  | none => .error (.fileNotFoundError file_path)
  | some (.ioFail m) => .error (.osError m)
  | some (.content s) => parse_as jp yp file_type s

/-- The except clauses of load_data (main.py lines 54-65), in source order: the
error-level log record each handler emits before re-raising the same exception. -/
def load_log (file_path : String) : PyErr → LogEntry
  | .fileNotFoundError _ => (.error, "File not found: " ++ file_path)
  | .jsonDecodeError m => (.error, "Error decoding JSON in " ++ file_path ++ ": " ++ m)
  | .yamlError m => (.error, "Error decoding YAML in " ++ file_path ++ ": " ++ m)
  | e => (.error, "Error loading data from " ++ file_path ++ ": " ++ e.toMsg)

/-- load_data (main.py lines 24-65): the existence check of line 40 runs before
the try block, so the FileNotFoundError of line 41 propagates without any log;
every failure inside the try block is logged by its handler and re-raised. -/
def load_data (fs : FS) (jp yp : Parser) (file_path : String)
    (file_type : Option String) : Except PyErr Doc × List LogEntry :=
  if (lookupFS fs file_path).isNone then
    (.error (.fileNotFoundError ("File not found: " ++ file_path)), [])
  else
    match load_body fs jp yp file_path (resolveType file_path file_type) with
    | .ok d => (.ok d, [])
    | .error e => (.error e, [load_log file_path e])

/-- The except clauses of validate_data (main.py lines 82-90), in source order. -/
def validate_log : PyErr → LogEntry
  | .validationError m => (.error, "Data validation failed: " ++ m)
  | .schemaError m => (.error, "Schema validation failed: " ++ m)
  | e => (.error, "An unexpected error occurred during validation: " ++ e.toMsg)

/-- validate_data (main.py lines 67-90): run the engine, log an info record on
success, or log the failure at error level and re-raise it. -/
def validate_data (jv : Validator) (data schema : Doc) :
    Except PyErr Unit × List LogEntry :=
  match jv data schema with
  | .ok _ => (.ok (), [(.info, "Data validation successful.")])
  | .error e => (.error e, [validate_log e])

/-- Parsed command-line configuration (the argparse namespace). -/
structure Args where
  data_file : String
  schema_file : String
  data_type : Option String
  schema_type : Option String
  log_level : String
deriving DecidableEq, Repr

/-- Observable outcome of one process run: the stdout lines printed, the log
records emitted, and the process exit code. -/
structure Output where
  stdout : List String
  log : List LogEntry
  exitCode : Nat
deriving DecidableEq, Repr

/-- The except clauses of main (main.py lines 108-122), in source order, mapped
to the printed message.  A JSONDecodeError is caught by the except ValueError
clause because it subclasses ValueError; a yaml.YAMLError matches none of the
specific clauses and falls through to the generic except Exception clause. -/
def main_report (e : PyErr) : String :=
  if e.isFileNotFound then "Error: " ++ e.toMsg
  else if e.isValueErrorClass then "Error: " ++ e.toMsg
  else if e.isValidationErrorClass then "Validation Error: " ++ e.toMsg
  else if e.isSchemaErrorClass then "Schema Error: " ++ e.toMsg
  else "An unexpected error occurred: " ++ e.toMsg

/-- The try block of main (main.py lines 102-122) after argument parsing: load
the data file, load the schema file, validate, print the success line; on any
exception print the mapped message and exit(1). -/
def main_run (fs : FS) (jp yp : Parser) (jv : Validator) (a : Args) : Output :=
  match load_data fs jp yp a.data_file a.data_type with
  | (.error e, l1) => { stdout := [main_report e], log := l1, exitCode := 1 }
  | (.ok d, l1) =>
    match load_data fs jp yp a.schema_file a.schema_type with
    | (.error e, l2) => { stdout := [main_report e], log := l1 ++ l2, exitCode := 1 }
    | (.ok sc, l2) =>
      match validate_data jv d sc with
      | (.error e, l3) => { stdout := [main_report e], log := l1 ++ l2 ++ l3, exitCode := 1 }
      | (.ok _, l3) =>
        { stdout := ["Validation successful!"], log := l1 ++ l2 ++ l3, exitCode := 0 }

/-- Raw command line, already grouped: the positional operands and flag values. -/
structure CLI where
  positionals : List String
  data_type : Option String
  schema_type : Option String
  log_level : Option String

/-- An omitted optional flag is fine; a given one must be among its choices. -/
def optChoice (v : Option String) (cs : List String) : Bool :=
  match v with
  | none => true
  | some s => cs.contains s

/-- Choices of the data_type and schema_type flags (setup_argparse, lines 19-20). -/
def typeChoices : List String := ["json", "yaml"]

/-- Choices of the log_level flag (setup_argparse, line 21). -/
def levelChoices : List String := ["DEBUG", "INFO", "WARNING", "ERROR", "CRITICAL"]

/-- Modelled from the spec: the Argument Parser of spec section 4.1, as configured
by setup_argparse (main.py lines 12-22); argparse itself is an external library
not present under src/.  Two required positional paths; each optional flag is
constrained to its choices; on any usage violation argparse prints a usage
message and ends the process with its documented usage exit code 2. -/
def parse_args (c : CLI) : Except Nat Args :=
  match c.positionals with
  | [df, sf] =>
    if optChoice c.data_type typeChoices && optChoice c.schema_type typeChoices
        && optChoice c.log_level levelChoices then
      .ok { data_file := df, schema_file := sf, data_type := c.data_type,
            schema_type := c.schema_type, log_level := c.log_level.getD "INFO" }
    else .error 2
  | _ => .error 2

/-- The whole process: parse_args, then the main try block.  A usage error ends
the process with the argparse exit code before the pipeline runs. -/
def program_run (fs : FS) (jp yp : Parser) (jv : Validator) (c : CLI) : Output :=
  match parse_args c with
  | .error code => { stdout := [], log := [], exitCode := code }
  | .ok a => main_run fs jp yp jv a

/-- Does the first list start the second one? -/
def segStarts : List Char → List Char → Bool
  | [], _ => true
  | _ :: _, [] => false
  | a :: as, b :: bs => a == b && segStarts as bs

/-- Does the first list occur contiguously inside the second one? -/
def segOccurs (sub : List Char) : List Char → Bool
  | [] => segStarts sub []
  | c :: rest => segStarts sub (c :: rest) || segOccurs sub rest

/-- Substring occurrence on strings (the Python in operator on str). -/
def strContains (s sub : String) : Bool := segOccurs sub.data s.data

/-! Concrete runs used by the witnesses and counterexamples below. -/

/-- Sample data document: name John Doe, age 30 (main.py example usage). -/
def sampleDoc : Doc := .obj [("name", .str "John Doe"), ("age", .num 30)]

/-- A json.load oracle that parses any content to the sample document. -/
def jsonOracle : Parser := fun _ => .ok sampleDoc

/-- A yaml.safe_load oracle that parses any content to the sample document. -/
def yamlOracle : Parser := fun _ => .ok sampleDoc

/-- A validation engine that accepts every pair of documents. -/
def acceptAll : Validator := fun _ _ => .ok ()

/-- A filesystem holding a readable data file and schema file. -/
def sampleFS : FS := [("d.json", .content "DATA"), ("s.json", .content "SCHEMA")]

/-- Arguments naming the two sample files, with no explicit type flags. -/
def sampleArgs : Args := { data_file := "d.json", schema_file := "s.json",
                           data_type := none, schema_type := none, log_level := "INFO" }

/-- A validation engine that raises a ValidationError naming the age field. -/
def rejectViolation : Validator := fun _ _ =>
  .error (.validationError "30 is not of type integer on instance age")

/-- A validation engine that raises a SchemaError, as the jsonschema engine does
when the schema document is not itself a well-formed schema. -/
def rejectSchema : Validator := fun _ _ =>
  .error (.schemaError "not-a-type is not valid under any of the given schemas")

/-- Arguments whose data path does not exist in sampleFS. -/
def missingArgs : Args := { data_file := "nope.json", schema_file := "s.json",
                            data_type := none, schema_type := none, log_level := "INFO" }

/-- A filesystem whose data file has a yaml extension and unparsable content. -/
def yamlBadFS : FS := [("d.yaml", .content "::notyaml"), ("s.json", .content "SCHEMA")]

/-- A yaml.safe_load oracle that always raises a YAMLError. -/
def yamlFailOracle : Parser := fun _ => .error "mapping values are not allowed here"

/-- Arguments naming the yaml data file of yamlBadFS. -/
def yamlArgs : Args := { data_file := "d.yaml", schema_file := "s.json",
                         data_type := none, schema_type := none, log_level := "INFO" }

/-- A filesystem holding a readable file with a txt extension. -/
def txtFS : FS := [("notes.txt", .content "hello")]

/-- A filesystem whose data file exists but cannot be read (permission error). -/
def permFS : FS := [("d.json", .ioFail "Errno 13 Permission denied: d.json"),
                    ("s.json", .content "SCHEMA")]

/-- A command line with no positional arguments at all. -/
def emptyCLI : CLI := { positionals := [], data_type := none,
                        schema_type := none, log_level := none }

/-- A well-formed command line naming the two sample files. -/
def goodCLI : CLI := { positionals := ["d.json", "s.json"], data_type := none,
                       schema_type := none, log_level := none }

/-- A filesystem holding a readable file under a directory whose name carries a
dot while the filename itself carries none. -/
def dirFS : FS := [("v1.2/data", .content "x")]

/-- A filesystem holding a readable file whose path carries no dot at all. -/
def cfgFS : FS := [("config", .content "x")]

/-! Helper lemmas and claim theorems. -/

/-- The modelled argument parser only ever fails with the usage exit code 2. -/
theorem parse_args_error_eq_two (c : CLI) (n : Nat) (h : parse_args c = .error n) :
    n = 2 := by
  unfold parse_args at h
  split at h
  · split at h
    · simp at h
    · exact (Except.error.inj h).symm
  · exact (Except.error.inj h).symm

/-- The pipeline after successful argument parsing exits with 0 or 1. -/
theorem main_run_exit_cases (fs : FS) (jp yp : Parser) (jv : Validator) (a : Args) :
    (main_run fs jp yp jv a).exitCode = 0 ∨ (main_run fs jp yp jv a).exitCode = 1 := by
  unfold main_run
  cases h1 : load_data fs jp yp a.data_file a.data_type with
  | mk r1 l1 =>
    cases r1 with
    | error e => simp
    | ok d =>
      cases h2 : load_data fs jp yp a.schema_file a.schema_type with
      | mk r2 l2 =>
        cases r2 with
        | error e => simp
        | ok sc =>
          cases h3 : validate_data jv d sc with
          | mk r3 l3 =>
            cases r3 with
            | error e => simp [h3]
            | ok u => simp [h3]

/-- splitOnDot never returns an empty list, as Python str.split never does. -/
theorem splitOnDot_ne_nil (l : List Char) : splitOnDot l ≠ [] := by
  cases l with
  | nil => simp [splitOnDot]
  | cons c rest =>
    simp only [splitOnDot]
    split
    · simp
    · split <;> simp

/-- Splitting a dot-free list gives the list itself as the only piece. -/
theorem splitOnDot_no_dot (l : List Char) (h : '.' ∉ l) : splitOnDot l = [l] := by
  induction l with
  | nil => rfl
  | cons c rest ih =>
    rw [List.mem_cons, not_or] at h
    obtain ⟨hc, hr⟩ := h
    have hc2 : (c == '.') = false := by
      simp only [beq_eq_false_iff_ne]
      exact fun e => hc e.symm
    simp [splitOnDot, hc2, ih hr]

/-- One-step unfolding equation for splitOnDot. -/
theorem splitOnDot_cons (c : Char) (l : List Char) :
    splitOnDot (c :: l) =
      if c == '.' then [] :: splitOnDot l
      else
        match splitOnDot l with
        | [] => [[c]]
        | piece :: more => (c :: piece) :: more := rfl

/-- A list containing a dot splits into at least two pieces. -/
theorem splitOnDot_dot_le (l1 l2 : List Char) :
    2 ≤ (splitOnDot (l1 ++ '.' :: l2)).length := by
  induction l1 with
  | nil =>
    have h := splitOnDot_ne_nil l2
    have h1 : 1 ≤ (splitOnDot l2).length := List.length_pos.mpr h
    rw [List.nil_append, splitOnDot_cons]
    simp only [beq_self_eq_true, if_true, List.length_cons]
    omega
  | cons c l1 ih =>
    rw [List.cons_append, splitOnDot_cons]
    split
    · simp only [List.length_cons]
      omega
    · cases hr : splitOnDot (l1 ++ '.' :: l2) with
      | nil => exact absurd hr (splitOnDot_ne_nil _)
      | cons p m =>
        rw [hr] at ih
        simp only [List.length_cons] at ih ⊢
        omega

/-- The last piece of a split is determined by the part after the last dot. -/
theorem splitOnDot_getLastD (l1 l2 : List Char) :
    (splitOnDot (l1 ++ '.' :: l2)).getLastD [] = (splitOnDot l2).getLastD [] := by
  induction l1 with
  | nil =>
    rw [List.nil_append, splitOnDot_cons]
    simp only [beq_self_eq_true, if_true, List.getLastD_cons]
  | cons c l1 ih =>
    rw [List.cons_append, splitOnDot_cons]
    split
    · rw [List.getLastD_cons]
      exact ih
    · cases hr : splitOnDot (l1 ++ '.' :: l2) with
      | nil => exact absurd hr (splitOnDot_ne_nil _)
      | cons p m =>
        have hlen := splitOnDot_dot_le l1 l2
        rw [hr] at hlen ih
        cases m with
        | nil => simp at hlen
        | cons q m2 =>
          rw [List.getLastD_cons] at ih ⊢
          rw [List.getLastD_cons] at ih ⊢
          exact ih

/-- On a dot-free path the inferred type is the whole path, lowercased. -/
theorem inferType_no_dot (l : List Char) (h : '.' ∉ l) :
    inferType (String.mk l) = String.mk (lowerL l) := by
  unfold inferType
  have hd : (String.mk l).data = l := rfl
  rw [hd, splitOnDot_no_dot l h]
  rfl

/-- On a path with a dot-free extension the inferred type is that extension, lowercased. -/
theorem inferType_ext (b e : List Char) (h : '.' ∉ e) :
    inferType (String.mk (b ++ '.' :: e)) = String.mk (lowerL e) := by
  unfold inferType
  have hd : (String.mk (b ++ '.' :: e)).data = b ++ '.' :: e := rfl
  rw [hd, splitOnDot_getLastD b e, splitOnDot_no_dot e h]
  rfl

/-- A segment occurring in a list still occurs after prepending. -/
theorem segOccurs_append_left (sub pre l : List Char)
    (h : segOccurs sub l = true) : segOccurs sub (pre ++ l) = true := by
  induction pre with
  | nil => simpa using h
  | cons c pre ih => simp [segOccurs, ih]

/-- A substring of s is a substring of any extension of s on the left. -/
theorem strContains_append_left (pre s p : String)
    (h : strContains s p = true) : strContains (pre ++ s) p = true := by
  have hd : (pre ++ s).data = pre.data ++ s.data := rfl
  rw [strContains, hd]
  exact segOccurs_append_left _ _ _ h

/-- The two failure reports of the Validator carry distinct prefixes. -/
theorem schema_vs_validation (m m2 : String) :
    "Schema Error: " ++ m ≠ "Validation Error: " ++ m2 := by
  intro h
  have h2 := congrArg (fun t => t.data.head?) h
  have e0 : (s t : String) → (s ++ t).data = s.data ++ t.data := fun _ _ => rfl
  have e1 : "Schema Error: ".data = 'S' :: "chema Error: ".data := rfl
  have e2 : "Validation Error: ".data = 'V' :: "alidation Error: ".data := rfl
  simp only [e0, e1, e2, List.cons_append, List.head?_cons] at h2
  exact absurd (Option.some.inj h2) (by decide)

/-- Claim C1: for every data document D and schema S such that D conforms to S
(the engine returns normally), running the pipeline - load both files, validate -
logs an info-level validation-successful message, prints the line
Validation successful! to stdout, and the process exits with code 0. -/
theorem c1_success_pipeline (fs : FS) (jp yp : Parser) (jv : Validator) (a : Args)
    (d s : Doc)
    (h1 : load_data fs jp yp a.data_file a.data_type = (.ok d, []))
    (h2 : load_data fs jp yp a.schema_file a.schema_type = (.ok s, []))
    (h3 : jv d s = .ok ()) :
    main_run fs jp yp jv a =
      { stdout := ["Validation successful!"],
        log := [(LogLevel.info, "Data validation successful.")],
        exitCode := 0 } := by
  simp [main_run, h1, h2, validate_data, h3]

theorem c1_witness :
    main_run sampleFS jsonOracle yamlOracle acceptAll sampleArgs =
      { stdout := ["Validation successful!"],
        log := [(LogLevel.info, "Data validation successful.")],
        exitCode := 0 } :=
  c1_success_pipeline sampleFS jsonOracle yamlOracle acceptAll sampleArgs sampleDoc sampleDoc rfl rfl rfl

/-- Claim C2: for every data document D that does not conform to schema S (the
engine raises a ValidationError whose message names an offending field or path
p of D), the process prints a single message prefixed with Validation Error:
that still contains p, and exits with code 1. -/
theorem c2_violation_reported (fs : FS) (jp yp : Parser) (jv : Validator) (a : Args)
    (d s : Doc) (m p : String)
    (h1 : load_data fs jp yp a.data_file a.data_type = (.ok d, []))
    (h2 : load_data fs jp yp a.schema_file a.schema_type = (.ok s, []))
    (h3 : jv d s = .error (.validationError m))
    (hp : strContains m p = true) :
    (main_run fs jp yp jv a).stdout = ["Validation Error: " ++ m]
    ∧ strContains ("Validation Error: " ++ m) p = true
    ∧ (main_run fs jp yp jv a).exitCode = 1 := by
  refine ⟨?_, strContains_append_left _ _ _ hp, ?_⟩
  · simp [main_run, h1, h2, validate_data, h3, main_report, PyErr.isFileNotFound,
      PyErr.isValueErrorClass, PyErr.isValidationErrorClass, PyErr.toMsg]
  · simp [main_run, h1, h2, validate_data, h3]

theorem c2_witness :
    (main_run sampleFS jsonOracle yamlOracle rejectViolation sampleArgs).stdout
      = ["Validation Error: " ++ "30 is not of type integer on instance age"]
    ∧ strContains ("Validation Error: " ++ "30 is not of type integer on instance age")
        "age" = true
    ∧ (main_run sampleFS jsonOracle yamlOracle rejectViolation sampleArgs).exitCode = 1 :=
  c2_violation_reported sampleFS jsonOracle yamlOracle rejectViolation sampleArgs sampleDoc sampleDoc
    "30 is not of type integer on instance age" "age" rfl rfl rfl (by decide)

/-- Claim C3: type resolution in the Loader.  If an explicit type is provided it
is used, overriding any extension, and it alone selects the parse branch;
otherwise the type is inferred case-insensitively from the extension after the
last dot, with yaml and yml both selecting the YAML branch and json the JSON
branch; in particular data.YML resolves to yml and DATA.Json to json. -/
theorem c3_type_resolution :
    (∀ (path t : String), resolveType path (some t) = t)
    ∧ (∀ (fs : FS) (jp yp : Parser) (path t s : String),
        lookupFS fs path = some (ReadResult.content s) →
        (load_data fs jp yp path (some t)).fst = parse_as jp yp t s)
    ∧ (∀ (b e : List Char), '.' ∉ e →
        inferType (String.mk (b ++ '.' :: e)) = String.mk (lowerL e))
    ∧ (∀ (jp yp : Parser) (s : String) (b e : List Char), '.' ∉ e →
        (String.mk (lowerL e) = "json" →
          parse_as jp yp (inferType (String.mk (b ++ '.' :: e))) s = jsonParseResult jp s)
        ∧ ((String.mk (lowerL e) = "yaml" ∨ String.mk (lowerL e) = "yml") →
          parse_as jp yp (inferType (String.mk (b ++ '.' :: e))) s = yamlParseResult yp s))
    ∧ inferType "data.YML" = "yml" ∧ inferType "DATA.Json" = "json" := by
  refine ⟨fun path t => rfl, ?_, inferType_ext, ?_, rfl, rfl⟩
  · intro fs jp yp path t s h
    unfold load_data load_body
    rw [h]
    simp only [Option.isNone_some, if_false, resolveType]
    cases hp : parse_as jp yp t s <;> simp [hp]
  · intro jp yp s b e he
    rw [inferType_ext b e he]
    constructor
    · intro hj
      rw [hj]
      simp [parse_as]
    · rintro (hy | hy) <;> rw [hy] <;> simp [parse_as]

theorem c3_witness :
    resolveType "d.yaml" (some "json") = "json"
    ∧ (load_data sampleFS jsonOracle yamlOracle "d.json" (some "yaml")).fst = parse_as jsonOracle yamlOracle "yaml" "DATA"
    ∧ inferType (String.mk ("data".data ++ '.' :: "YML".data)) = String.mk (lowerL "YML".data) :=
  ⟨c3_type_resolution.1 "d.yaml" "json",
   c3_type_resolution.2.1 sampleFS jsonOracle yamlOracle "d.json" "yaml" "DATA" rfl,
   c3_type_resolution.2.2.1 "data".data "YML".data (by decide)⟩

/-- Claim C4: for every path that does not exist on disk and every requested
type, explicit or inferred, and any parser oracles, load fails with the
FileNotFoundError of the pre-open existence check, emitting no log and touching
no file content, and the process prints Error: followed by the detail and exits
with code 1. -/
theorem c4_not_found (fs : FS) (jp yp : Parser) (jv : Validator) (a : Args)
    (h : lookupFS fs a.data_file = none) :
    (∀ (jp2 yp2 : Parser) (ft : Option String),
        load_data fs jp2 yp2 a.data_file ft
          = (.error (.fileNotFoundError ("File not found: " ++ a.data_file)), []))
    ∧ main_run fs jp yp jv a =
        { stdout := ["Error: " ++ ("File not found: " ++ a.data_file)],
          log := [], exitCode := 1 } := by
  constructor
  · intro jp2 yp2 ft
    simp [load_data, h]
  · simp [main_run, load_data, h, main_report, PyErr.isFileNotFound, PyErr.toMsg]

theorem c4_witness :
    main_run sampleFS jsonOracle yamlOracle acceptAll missingArgs =
      { stdout := ["Error: " ++ ("File not found: " ++ "nope.json")],
        log := [], exitCode := 1 } :=
  (c4_not_found sampleFS jsonOracle yamlOracle acceptAll missingArgs rfl).2

theorem c5_counterexample :
    (load_data yamlBadFS jsonOracle yamlFailOracle "d.yaml" none).fst
      = .error (.yamlError "mapping values are not allowed here")
    ∧ (main_run yamlBadFS jsonOracle yamlFailOracle acceptAll yamlArgs).stdout
      = ["An unexpected error occurred: " ++ "mapping values are not allowed here"]
    ∧ (main_run yamlBadFS jsonOracle yamlFailOracle acceptAll yamlArgs).exitCode = 1 :=
  ⟨rfl, rfl, rfl⟩

/-- Claim C5 as amended: a file whose content is invalid for its resolved format
fails with the parse-error exception carrying the underlying parser message and
is logged by the loader; a JSON parse error is reported at top level as
Error: detail (the JSONDecodeError is caught by the except ValueError clause)
and never reaches the generic branch, but a YAML parse error matches no
specific clause in main and is reported through the generic top-level branch
as An unexpected error occurred: detail; both exit with code 1. -/
theorem c5_parse_error_paths (fs : FS) (jp yp : Parser) (jv : Validator) (a : Args)
    (s m : String)
    (hex : lookupFS fs a.data_file = some (ReadResult.content s)) :
    (resolveType a.data_file a.data_type = "json" → jp s = .error m →
      load_data fs jp yp a.data_file a.data_type
        = (.error (.jsonDecodeError m),
           [(LogLevel.error, "Error decoding JSON in " ++ a.data_file ++ ": " ++ m)])
      ∧ (main_run fs jp yp jv a).stdout = ["Error: " ++ m]
      ∧ (main_run fs jp yp jv a).exitCode = 1)
    ∧ ((resolveType a.data_file a.data_type = "yaml"
          ∨ resolveType a.data_file a.data_type = "yml") →
      yp s = .error m →
      load_data fs jp yp a.data_file a.data_type
        = (.error (.yamlError m),
           [(LogLevel.error, "Error decoding YAML in " ++ a.data_file ++ ": " ++ m)])
      ∧ (main_run fs jp yp jv a).stdout = ["An unexpected error occurred: " ++ m]
      ∧ (main_run fs jp yp jv a).exitCode = 1) := by
  constructor
  · intro hr hj
    have hld : load_data fs jp yp a.data_file a.data_type
        = (.error (.jsonDecodeError m),
           [(LogLevel.error, "Error decoding JSON in " ++ a.data_file ++ ": " ++ m)]) := by
      simp [load_data, hex, hr, load_body, parse_as, jsonParseResult, hj, load_log]
    refine ⟨hld, ?_, ?_⟩ <;>
      simp [main_run, hld, main_report, PyErr.isFileNotFound, PyErr.isValueErrorClass,
        PyErr.toMsg]
  · intro hr hy
    have hld : load_data fs jp yp a.data_file a.data_type
        = (.error (.yamlError m),
           [(LogLevel.error, "Error decoding YAML in " ++ a.data_file ++ ": " ++ m)]) := by
      rcases hr with hr | hr <;>
        simp [load_data, hex, hr, load_body, parse_as, yamlParseResult, hy, load_log]
    refine ⟨hld, ?_, ?_⟩ <;>
      simp [main_run, hld, main_report, PyErr.isFileNotFound, PyErr.isValueErrorClass,
        PyErr.isValidationErrorClass, PyErr.isSchemaErrorClass, PyErr.toMsg]

theorem c5_witness :
    load_data yamlBadFS jsonOracle yamlFailOracle "d.yaml" none
      = (.error (.yamlError "mapping values are not allowed here"),
         [(LogLevel.error, "Error decoding YAML in " ++ "d.yaml" ++ ": "
            ++ "mapping values are not allowed here")])
    ∧ (main_run yamlBadFS jsonOracle yamlFailOracle acceptAll yamlArgs).stdout
      = ["An unexpected error occurred: " ++ "mapping values are not allowed here"]
    ∧ (main_run yamlBadFS jsonOracle yamlFailOracle acceptAll yamlArgs).exitCode = 1 :=
  (c5_parse_error_paths yamlBadFS jsonOracle yamlFailOracle acceptAll yamlArgs "::notyaml"
    "mapping values are not allowed here" rfl).2 (Or.inl rfl) rfl

/-- Claim C6: when the schema document is not itself a well-formed schema (the
engine raises a SchemaError), validation fails with that SchemaError, logged at
error level as Schema validation failed:, reported with the distinct message
prefix Schema Error: and exit code 1, and the reported message is always
distinct from any data-violation report prefixed Validation Error:. -/
theorem c6_schema_invalid (fs : FS) (jp yp : Parser) (jv : Validator) (a : Args)
    (d s : Doc) (m : String)
    (h1 : load_data fs jp yp a.data_file a.data_type = (.ok d, []))
    (h2 : load_data fs jp yp a.schema_file a.schema_type = (.ok s, []))
    (h3 : jv d s = .error (.schemaError m)) :
    validate_data jv d s
      = (.error (.schemaError m),
         [(LogLevel.error, "Schema validation failed: " ++ m)])
    ∧ main_run fs jp yp jv a =
        { stdout := ["Schema Error: " ++ m],
          log := [(LogLevel.error, "Schema validation failed: " ++ m)],
          exitCode := 1 }
    ∧ (∀ m2 : String,
        main_report (PyErr.schemaError m) ≠ main_report (PyErr.validationError m2)) := by
  refine ⟨?_, ?_, ?_⟩
  · simp [validate_data, h3, validate_log]
  · simp [main_run, h1, h2, validate_data, h3, validate_log, main_report,
      PyErr.isFileNotFound, PyErr.isValueErrorClass, PyErr.isValidationErrorClass,
      PyErr.isSchemaErrorClass, PyErr.toMsg]
  · intro m2
    simp only [main_report, PyErr.isFileNotFound, PyErr.isValueErrorClass,
      PyErr.isValidationErrorClass, PyErr.isSchemaErrorClass, PyErr.toMsg,
      Bool.false_eq_true, if_false, if_true]
    exact schema_vs_validation m m2

theorem c6_witness :
    validate_data rejectSchema sampleDoc sampleDoc
      = (.error (.schemaError "not-a-type is not valid under any of the given schemas"),
         [(LogLevel.error, "Schema validation failed: "
            ++ "not-a-type is not valid under any of the given schemas")])
    ∧ main_run sampleFS jsonOracle yamlOracle rejectSchema sampleArgs =
        { stdout := ["Schema Error: "
            ++ "not-a-type is not valid under any of the given schemas"],
          log := [(LogLevel.error, "Schema validation failed: "
            ++ "not-a-type is not valid under any of the given schemas")],
          exitCode := 1 } :=
  ⟨(c6_schema_invalid sampleFS jsonOracle yamlOracle rejectSchema sampleArgs sampleDoc sampleDoc
      "not-a-type is not valid under any of the given schemas" rfl rfl rfl).1,
   (c6_schema_invalid sampleFS jsonOracle yamlOracle rejectSchema sampleArgs sampleDoc sampleDoc
      "not-a-type is not valid under any of the given schemas" rfl rfl rfl).2.1⟩

theorem c7_counterexample :
    (load_data sampleFS jsonOracle yamlOracle "nope.json" none).fst
      = .error (.fileNotFoundError ("File not found: " ++ "nope.json"))
    ∧ (load_data sampleFS jsonOracle yamlOracle "nope.json" none).snd = [] :=
  ⟨rfl, rfl⟩

/-- Claim C7 as amended: every failure path of the Loader other than the
NotFound pre-open check - unsupported type, JSON parse error, YAML parse error,
other I/O failure - emits exactly one error-level log record before the error
propagates to the caller, and the failure is still returned (logging never
suppresses it).  The NotFound error of line 41 is raised before the try block
and propagates without any loader log. -/
theorem c7_logged_failures (fs : FS) (jp yp : Parser) (p s m : String)
    (ft : Option String) :
    (lookupFS fs p = some (ReadResult.content s) →
      resolveType p ft ≠ "json" → resolveType p ft ≠ "yaml" → resolveType p ft ≠ "yml" →
      load_data fs jp yp p ft
        = (.error (.valueError (unsupportedMsg (resolveType p ft))),
           [(LogLevel.error, "Error loading data from " ++ p ++ ": "
              ++ unsupportedMsg (resolveType p ft))]))
    ∧ (lookupFS fs p = some (ReadResult.content s) → resolveType p ft = "json" →
        jp s = .error m →
        load_data fs jp yp p ft
          = (.error (.jsonDecodeError m),
             [(LogLevel.error, "Error decoding JSON in " ++ p ++ ": " ++ m)]))
    ∧ (lookupFS fs p = some (ReadResult.content s) →
        (resolveType p ft = "yaml" ∨ resolveType p ft = "yml") → yp s = .error m →
        load_data fs jp yp p ft
          = (.error (.yamlError m),
             [(LogLevel.error, "Error decoding YAML in " ++ p ++ ": " ++ m)]))
    ∧ (lookupFS fs p = some (ReadResult.ioFail m) →
        load_data fs jp yp p ft
          = (.error (.osError m),
             [(LogLevel.error, "Error loading data from " ++ p ++ ": " ++ m)])) := by
  refine ⟨?_, ?_, ?_, ?_⟩
  · intro hex h1 h2 h3
    simp [load_data, hex, load_body, parse_as, h1, h2, h3, load_log, PyErr.toMsg]
  · intro hex hr hj
    simp [load_data, hex, load_body, parse_as, hr, jsonParseResult, hj, load_log]
  · intro hex hr hy
    rcases hr with hr | hr <;>
      simp [load_data, hex, load_body, parse_as, hr, yamlParseResult, hy, load_log]
  · intro hio
    simp [load_data, hio, load_body, load_log, PyErr.toMsg]

theorem c7_witness :
    load_data txtFS jsonOracle yamlOracle "notes.txt" none
      = (.error (.valueError (unsupportedMsg (resolveType "notes.txt" none))),
         [(LogLevel.error, "Error loading data from " ++ "notes.txt" ++ ": "
            ++ unsupportedMsg (resolveType "notes.txt" none))]) :=
  (c7_logged_failures txtFS jsonOracle yamlOracle "notes.txt" "hello" "m" none).1 rfl
    (by decide) (by decide) (by decide)

theorem c8_counterexample :
    (program_run sampleFS jsonOracle yamlOracle acceptAll emptyCLI).exitCode = 2
    ∧ (program_run sampleFS jsonOracle yamlOracle acceptAll emptyCLI).exitCode ≠ 0
    ∧ (program_run sampleFS jsonOracle yamlOracle acceptAll emptyCLI).exitCode ≠ 1 :=
  ⟨rfl, by decide, by decide⟩

/-- Claim C8 as amended: the process exit code is 0 on success, 1 on any runtime
failure of the pipeline, and 2 - the argparse usage exit code, reserved for CLI
misuse - when required positional arguments are missing or an enum flag has an
invalid value; no other exit code is produced. -/
theorem c8_exit_codes (fs : FS) (jp yp : Parser) (jv : Validator) (c : CLI) :
    ((program_run fs jp yp jv c).exitCode = 0 ∨ (program_run fs jp yp jv c).exitCode = 1
      ∨ (program_run fs jp yp jv c).exitCode = 2)
    ∧ (∀ n, parse_args c = .error n → n = 2
        ∧ (program_run fs jp yp jv c).exitCode = 2)
    ∧ (∀ a, parse_args c = .ok a →
        program_run fs jp yp jv c = main_run fs jp yp jv a
        ∧ ((main_run fs jp yp jv a).exitCode = 0
            ∨ (main_run fs jp yp jv a).exitCode = 1)) := by
  refine ⟨?_, ?_, ?_⟩
  · cases hpa : parse_args c with
    | error n =>
      have hn := parse_args_error_eq_two c n hpa
      right; right
      simp [program_run, hpa, hn]
    | ok a =>
      have := main_run_exit_cases fs jp yp jv a
      rcases this with h | h
      · left; simp [program_run, hpa, h]
      · right; left; simp [program_run, hpa, h]
  · intro n hpa
    have hn := parse_args_error_eq_two c n hpa
    exact ⟨hn, by simp [program_run, hpa, hn]⟩
  · intro a hpa
    exact ⟨by simp [program_run, hpa], main_run_exit_cases fs jp yp jv a⟩

theorem c8_witness :
    program_run sampleFS jsonOracle yamlOracle acceptAll goodCLI = main_run sampleFS jsonOracle yamlOracle acceptAll sampleArgs
    ∧ ((main_run sampleFS jsonOracle yamlOracle acceptAll sampleArgs).exitCode = 0
        ∨ (main_run sampleFS jsonOracle yamlOracle acceptAll sampleArgs).exitCode = 1) :=
  (c8_exit_codes sampleFS jsonOracle yamlOracle acceptAll goodCLI).2.2 sampleArgs rfl

theorem c9_counterexample :
    (main_run permFS jsonOracle yamlOracle acceptAll sampleArgs).stdout
      = ["An unexpected error occurred: " ++ "Errno 13 Permission denied: d.json"]
    ∧ (main_run permFS jsonOracle yamlOracle acceptAll sampleArgs).log
      = [(LogLevel.error, "Error loading data from " ++ "d.json" ++ ": "
          ++ "Errno 13 Permission denied: d.json")]
    ∧ (main_run permFS jsonOracle yamlOracle acceptAll sampleArgs).exitCode = 1 :=
  ⟨rfl, rfl, rfl⟩

/-- Claim C9 as amended: an I/O failure during load other than non-existence
(for example a permission error on an existing file) propagates as the
underlying OS error: the loader logs it through its generic handler as
Error loading data from path, and the top level reports it through the generic
branch as An unexpected error occurred: detail with exit code 1; there is no
distinct IOError reporting category. -/
theorem c9_io_failure (fs : FS) (jp yp : Parser) (jv : Validator) (a : Args) (m : String)
    (h : lookupFS fs a.data_file = some (ReadResult.ioFail m)) :
    load_data fs jp yp a.data_file a.data_type
      = (.error (.osError m),
         [(LogLevel.error, "Error loading data from " ++ a.data_file ++ ": " ++ m)])
    ∧ main_run fs jp yp jv a =
        { stdout := ["An unexpected error occurred: " ++ m],
          log := [(LogLevel.error, "Error loading data from " ++ a.data_file ++ ": " ++ m)],
          exitCode := 1 } := by
  have hld : load_data fs jp yp a.data_file a.data_type
      = (.error (.osError m),
         [(LogLevel.error, "Error loading data from " ++ a.data_file ++ ": " ++ m)]) := by
    simp [load_data, h, load_body, load_log, PyErr.toMsg]
  refine ⟨hld, ?_⟩
  simp [main_run, hld, main_report, PyErr.isFileNotFound, PyErr.isValueErrorClass,
    PyErr.isValidationErrorClass, PyErr.isSchemaErrorClass, PyErr.toMsg]

theorem c9_witness :
    load_data permFS jsonOracle yamlOracle "d.json" none
      = (.error (.osError "Errno 13 Permission denied: d.json"),
         [(LogLevel.error, "Error loading data from " ++ "d.json" ++ ": "
            ++ "Errno 13 Permission denied: d.json")])
    ∧ main_run permFS jsonOracle yamlOracle acceptAll sampleArgs =
        { stdout := ["An unexpected error occurred: "
            ++ "Errno 13 Permission denied: d.json"],
          log := [(LogLevel.error, "Error loading data from " ++ "d.json" ++ ": "
            ++ "Errno 13 Permission denied: d.json")],
          exitCode := 1 } :=
  c9_io_failure permFS jsonOracle yamlOracle acceptAll sampleArgs "Errno 13 Permission denied: d.json" rfl

/-- Claim C10 as amended: when no explicit type is given, the Loader takes the
substring after the last dot of the whole path - the whole path, lowercased,
when it contains no dot at all - as the type; consequently, for every existing
readable path containing no dot, the entire lowercased path becomes the
resolved type and, unless that string is literally json, yaml or yml, the load
fails with the UnsupportedType ValueError; the error is raised only after the
file has been successfully opened, so an open failure yields the OS error
instead, never the ValueError. -/
theorem c10_inference (fs : FS) (jp yp : Parser) (l : List Char) (s m : String)
    (hdot : '.' ∉ l) :
    inferType (String.mk l) = String.mk (lowerL l)
    ∧ (lookupFS fs (String.mk l) = some (ReadResult.content s) →
        String.mk (lowerL l) ≠ "json" → String.mk (lowerL l) ≠ "yaml" →
        String.mk (lowerL l) ≠ "yml" →
        load_data fs jp yp (String.mk l) none
          = (.error (.valueError (unsupportedMsg (String.mk (lowerL l)))),
             [(LogLevel.error, "Error loading data from " ++ String.mk l ++ ": "
                ++ unsupportedMsg (String.mk (lowerL l)))]))
    ∧ (lookupFS fs (String.mk l) = some (ReadResult.ioFail m) →
        (load_data fs jp yp (String.mk l) none).fst = .error (.osError m)) := by
  have hi := inferType_no_dot l hdot
  refine ⟨hi, ?_, ?_⟩
  · intro hex h1 h2 h3
    have := (c7_logged_failures fs jp yp (String.mk l) s m none).1 hex
    simp only [resolveType, hi] at this
    exact this h1 h2 h3
  · intro hio
    simp [load_data, hio, load_body]

/-- Claim C10 counterexample: the path v1.2/data has a filename, data, with no
dot in it, yet the resolved type is the lowercased substring after the last dot
of the whole path, 2/data, not the entire filename; the load fails with the
ValueError carrying 2/data. -/
theorem c10_counterexample :
    inferType "v1.2/data" = "2/data"
    ∧ "2/data" ≠ ("data" : String)
    ∧ (load_data dirFS jsonOracle yamlOracle "v1.2/data" none).fst
        = .error (.valueError (unsupportedMsg "2/data")) :=
  ⟨rfl, by decide, rfl⟩

theorem c10_witness :
    inferType (String.mk "config".data) = String.mk (lowerL "config".data)
    ∧ load_data cfgFS jsonOracle yamlOracle (String.mk "config".data) none
        = (.error (.valueError (unsupportedMsg (String.mk (lowerL "config".data)))),
           [(LogLevel.error, "Error loading data from " ++ String.mk "config".data ++ ": "
              ++ unsupportedMsg (String.mk (lowerL "config".data)))]) :=
  ⟨(c10_inference cfgFS jsonOracle yamlOracle "config".data "x" "m" (by decide)).1,
   (c10_inference cfgFS jsonOracle yamlOracle "config".data "x" "m" (by decide)).2.1 rfl
     (by decide) (by decide) (by decide)⟩
